import Mathlib

/-!
Verification of the Lanyard presence integration (`src/lanyard-integration.js`).

The file shallowly embeds the `LanyardIntegration` class: its pure pieces
(status lookup table, activity selection) become Lean functions; the DOM is a
record of presence flags for the four queried elements; event-handler code that
can throw is modelled with `Except`; the reconnect lifecycle is a step function
over an explicit connection state driven by websocket events.
-/

namespace Lanyard

/-- One Discord activity descriptor as consumed by `updateActivity`.
`type` is the numeric activity kind (the code compares it with `0` and `4`);
`details`, `state` and the emoji name are optional string fields, where the
JS code tests them for truthiness (present and non-empty). -/
structure Activity where
  type : Nat
  name : String
  details : Option String
  state : Option String
  emojiName : Option String
deriving DecidableEq, Repr

/-- JS truthiness of an optional string field: present and non-empty. -/
def truthy (o : Option String) : Bool :=
  match o with
  | some s => s != ""
  | none => false

/-- The payload `updateStatus` receives (`data.data` from the HTTP envelope, or
`data.d` from a websocket data message). `activities` is optional because the
code guards with `userData.activities || []`. -/
structure UserData where
  discord_status : String
  activities : Option (List Activity)
deriving DecidableEq, Repr

/-- Predicate of the `gameActivity` finder:
`activity.type === 0 && activity.name !== 'Spotify' && activity.name !== 'Custom Status'`. -/
def isGame (a : Activity) : Bool :=
  a.type == 0 && a.name != "Spotify" && a.name != "Custom Status"

/-- Predicate of the `customStatus` finder: `activity.type === 4`. -/
def isCustom (a : Activity) : Bool :=
  a.type == 4

/-- Predicate of the `spotifyActivity` finder: `activity.name === 'Spotify'`. -/
def isSpotify (a : Activity) : Bool :=
  a.name == "Spotify"

/-- What the activity element displays after `updateActivity` runs: exactly one
activity (with its branch) or a hidden display. -/
inductive Rendered where
  | playing (a : Activity)
  | listening (a : Activity)
  | custom (a : Activity)
  | hidden
deriving DecidableEq, Repr

/-- The branch structure of `updateActivity` (lines 147-189): three `find` calls,
then an if/else-if chain `gameActivity && status !== 'offline'`, then
`spotifyActivity && status !== 'offline'`, then
`customStatus && customStatus.state && status !== 'offline'`, else hide.
When `gameActivity` is present but `status === 'offline'`, every later branch
also fails its status test, so collapsing to `hidden` is exact. -/
def selectActivity (activities : List Activity) (status : String) : Rendered :=
  let gameActivity := activities.find? isGame
  let customStatus := activities.find? isCustom
  let spotifyActivity := activities.find? isSpotify
  match gameActivity, spotifyActivity, customStatus with
  | some g, _, _ =>
      if status != "offline" then Rendered.playing g else Rendered.hidden
  | none, some sp, _ =>
      if status != "offline" then Rendered.listening sp else Rendered.hidden
  | none, none, some c =>
      if truthy c.state && status != "offline" then Rendered.custom c
      else Rendered.hidden
  | none, none, none => Rendered.hidden

/-- One row of the fixed `statusConfig` lookup table. Field `text` is the
human label written into `statusText.textContent`. -/
structure StatusCfg where
  color : String
  text : String
  shadow : String
deriving DecidableEq, Repr

/-- The `offline` row, also the default picked by `statusConfig[status] || statusConfig.offline`. -/
def offlineConfig : StatusCfg :=
  ⟨"#333", "Offline", "0 0 5px #333"⟩

/-- The fixed `statusConfig` object literal of `updateStatus` (lines 119-124). -/
def statusTable : List (String × StatusCfg) :=
  [("online", ⟨"#555", "Online", "0 0 5px #555"⟩),
   ("idle", ⟨"#666", "Away", "0 0 5px #666"⟩),
   ("dnd", ⟨"#777", "Busy", "0 0 5px #777"⟩),
   ("offline", offlineConfig)]

/-- `const config = statusConfig[status] || statusConfig.offline`, restricted
to own-key lookup with the `offline` row as default. This is exact whenever
`status` is not the name of an inherited `Object.prototype` member; the full
property-access semantics, prototype chain included, is `configValue` below,
and the two differ only on those inherited names. -/
def statusConfig (status : String) : StatusCfg :=
  match statusTable.find? (fun p => p.1 == status) with
  | some p => p.2
  | none => offlineConfig

/-- The member names an object literal inherits from `Object.prototype`, every
one of them bound to a function — or, for `__proto__`, an object — and hence
truthy. `statusConfig[status]` finds these when `status` is not an own key. -/
def objectProtoMembers : List String :=
  ["constructor", "hasOwnProperty", "isPrototypeOf", "propertyIsEnumerable",
   "toLocaleString", "toString", "valueOf", "__proto__",
   "__defineGetter__", "__defineSetter__", "__lookupGetter__", "__lookupSetter__"]

/-- What the expression `statusConfig[status] || statusConfig.offline` can
evaluate to: one of the literal's own rows, or a value inherited from
`Object.prototype`. -/
inductive ConfigValue where
  | row (cfg : StatusCfg)
  | inherited (name : String)
deriving DecidableEq, Repr

/-- `statusConfig[status]` as JS property access: own keys first, then the
prototype chain, then undefined. -/
def configProperty (status : String) : Option ConfigValue :=
  match statusTable.find? (fun p => p.1 == status) with
  | some p => some (ConfigValue.row p.2)
  | none =>
    if status ∈ objectProtoMembers then some (ConfigValue.inherited status)
    else none

/-- `const config = statusConfig[status] || statusConfig.offline` with the
property access modelled in full: rows and inherited prototype members are both
truthy, so the `offline` default applies only when the access yields
undefined. -/
def configValue (status : String) : ConfigValue :=
  match configProperty status with
  | some v => v
  | none => ConfigValue.row offlineConfig

/-- The `config.color` / `config.text` / `config.shadow` reads that follow: a
row has all three fields, while an inherited prototype function has none of
them, so each read yields undefined. -/
def configFields (v : ConfigValue) : Option StatusCfg :=
  match v with
  | ConfigValue.row cfg => some cfg
  | ConfigValue.inherited _ => none

/-- Presence of the four DOM elements the integration queries:
`.status-dot`, `.status-text`, `.discord-activity`, `.profile-info`. -/
structure Dom where
  statusDot : Bool
  statusText : Bool
  discordActivity : Bool
  profileInfo : Bool
deriving DecidableEq, Repr

/-- Exceptions the handlers can raise: `typeError` for
`document.querySelector('.profile-info').appendChild(...)` on a `null` result,
`parseError` for `JSON.parse` on a malformed message. -/
inductive JsError where
  | typeError
  | parseError
deriving DecidableEq, Repr

/-- `updateActivity` (lines 137-144 plus the branch chain): if `.discord-activity`
exists, render into it; otherwise create it and append it to `.profile-info` —
which throws a `TypeError` when `.profile-info` is absent. On success the pair
carries whether the element was created and what it now displays. -/
def updateActivity (dom : Dom) (activities : List Activity) (status : String) :
    Except JsError (Bool × Rendered) :=
  if dom.discordActivity then
    Except.ok (false, selectActivity activities status)
  else if dom.profileInfo then
    Except.ok (true, selectActivity activities status)
  else
    Except.error JsError.typeError

/-- Result of `updateStatus`: early logged return when the status elements are
missing, or a full update (applied config, whether the activity element was
created, and the rendered activity). -/
inductive UpdateOutcome where
  | noop
  | updated (cfg : StatusCfg) (createdActivityElement : Bool) (r : Rendered)
deriving DecidableEq, Repr

/-- `updateStatus` (lines 103-135): query `.status-dot` and `.status-text`; if
either is missing, log and return. Otherwise apply the `statusConfig` row for
`userData.discord_status` to the indicator and call
`updateActivity(userData.activities || [], status)`. The dot/text style writes
happen before `updateActivity`, so a thrown `TypeError` leaves them applied;
the error value records only that the call threw. -/
def updateStatus (dom : Dom) (userData : UserData) : Except JsError UpdateOutcome :=
  if !dom.statusDot || !dom.statusText then
    Except.ok UpdateOutcome.noop
  else
    let status := userData.discord_status
    let activities := userData.activities.getD []
    let config := statusConfig status
    (updateActivity dom activities status).map
      (fun p => UpdateOutcome.updated config p.1 p.2)

/-- An inbound websocket message as seen by `onmessage`: either `event.data` is
not valid JSON (so `JSON.parse` throws), or it parsed to an object whose `op`,
`t` and `d` fields may each be absent. -/
inductive InMsg where
  | malformed
  | parsed (op : Option Nat) (t : Option String) (d : Option UserData)
deriving DecidableEq, Repr

/-- What the `onmessage` handler does with a message. -/
inductive MsgAction where
  | sendHeartbeatAck
  | render (d : Option UserData)
  | ignore
deriving DecidableEq, Repr

/-- `onmessage` (lines 64-74): `JSON.parse(event.data)` throws on malformed
input; otherwise `op === 1` answers the heartbeat with `{op: 3}`,
`t === 'INIT_STATE' || t === 'PRESENCE_UPDATE'` renders `data.d`, and any other
shape falls through the chain with no effect. -/
def handleMessage (m : InMsg) : Except JsError MsgAction :=
  match m with
  | InMsg.malformed => Except.error JsError.parseError
  | InMsg.parsed op t d =>
    if op == some 1 then Except.ok MsgAction.sendHeartbeatAck
    else if t == some "INIT_STATE" || t == some "PRESENCE_UPDATE" then
      Except.ok (MsgAction.render d)
    else Except.ok MsgAction.ignore

/-- How the one-shot `fetchInitialStatus` attempt can turn out. -/
inductive FetchOutcome where
  | networkError
  | timeoutAbort
  | httpNotOk
  | badJson
  | envelopeNotSuccess
  | success (d : UserData)
deriving DecidableEq, Repr

/-- `fetchInitialStatus` (lines 21-46): the whole body sits in a `try` whose
`catch` only logs, and every path ends in `return true/false` — including a
`TypeError` thrown by `updateStatus` on the success path, which the same
`catch` swallows. The `Except` result is therefore always `ok`. -/
def fetchInitialStatus (dom : Dom) (o : FetchOutcome) : Except JsError Bool :=
  match o with
  | FetchOutcome.success d =>
    match updateStatus dom d with
    | Except.ok _ => Except.ok true
    | Except.error _ => Except.ok false
  | _ => Except.ok false

/-- Where `init` ends up: proceeding to `connectWebSocket()` or taking the
`catch` branch into `useFallback()`. -/
inductive InitResult where
  | connected
  | usedFallback
deriving DecidableEq, Repr

/-- `init` (lines 11-19): `await fetchInitialStatus()` then `connectWebSocket()`;
the `catch` fires only if one of those throws. -/
def init (dom : Dom) (o : FetchOutcome) : InitResult :=
  match fetchInitialStatus dom o with
  | Except.ok _ => InitResult.connected
  | Except.error _ => InitResult.usedFallback

/-- Manager mode: still driving the live connection, or permanent fallback. -/
inductive Mode where
  | active
  | fallback
deriving DecidableEq, Repr

/-- Connection-lifecycle state. `reconnectAttempts` and the ceiling mirror the
class fields; `scheduledRetries` is a ghost counter of `setTimeout` reconnect
schedules, and `lastScheduledDelay` records the delay of the retry scheduled by
the most recent event (none when that event scheduled nothing). -/
structure ConnState where
  reconnectAttempts : Nat
  mode : Mode
  scheduledRetries : Nat
  lastScheduledDelay : Option Nat
deriving DecidableEq, Repr

/-- `this.maxReconnectAttempts = 5`. -/
def maxReconnectAttempts : Nat := 5

/-- The fixed base of the reconnect delay `3000 * this.reconnectAttempts`. -/
def baseDelayMs : Nat := 3000

/-- `attemptReconnect` (lines 89-101): below the ceiling, increment the counter
and schedule `connectWebSocket` after `3000 * reconnectAttempts` ms (counter
already incremented); at the ceiling, switch to fallback and schedule nothing. -/
def attemptReconnect (s : ConnState) : ConnState :=
  if s.reconnectAttempts < maxReconnectAttempts then
    { s with
      reconnectAttempts := s.reconnectAttempts + 1,
      scheduledRetries := s.scheduledRetries + 1,
      lastScheduledDelay := some (baseDelayMs * (s.reconnectAttempts + 1)) }
  else
    { s with mode := Mode.fallback, lastScheduledDelay := none }

/-- Websocket lifecycle events the handlers react to. -/
inductive WsEvent where
  | openOk
  | close (wasClean : Bool)
deriving DecidableEq, Repr

/-- The event-driven transition: `onopen` resets `reconnectAttempts` to 0
(lines 51-53); `onclose` calls `attemptReconnect` only when `!event.wasClean`
(lines 76-81). -/
def step (s : ConnState) (e : WsEvent) : ConnState :=
  match e with
  | WsEvent.openOk => { s with reconnectAttempts := 0, lastScheduledDelay := none }
  | WsEvent.close wasClean =>
    if wasClean then { s with lastScheduledDelay := none }
    else attemptReconnect s

/-- The constructor state: counter 0, live mode, nothing scheduled. -/
def initConnState : ConnState :=
  ⟨0, Mode.active, 0, none⟩

/-- Run the manager from its initial state over a sequence of events. -/
def run (es : List WsEvent) : ConnState :=
  es.foldl step initConnState

/-- State after `n` consecutive unclean closes with no intervening open. -/
def streakState (n : Nat) : ConnState :=
  run (List.replicate n (WsEvent.close false))

/-- `useFallback`'s synthetic status (lines 195-204): during 9:00-23:59 pick
`online` when the random draw exceeds 0.4 and `idle` otherwise; outside those
hours pick `dnd` when it exceeds 0.8 and `offline` otherwise. The random draw
is modelled as a rational in place of the IEEE double from `Math.random()`. -/
def fallbackStatus (hour : Nat) (rand : ℚ) : String :=
  if 9 ≤ hour ∧ hour ≤ 23 then
    if rand > 0.4 then "online" else "idle"
  else
    if rand > 0.8 then "dnd" else "offline"

/-- The synthetic snapshot `{discord_status: status, activities: []}` that
`useFallback` passes to `updateStatus` (line 207). -/
def fallbackSnapshot (hour : Nat) (rand : ℚ) : UserData :=
  { discord_status := fallbackStatus hour rand, activities := some [] }

/-- `setInterval(updateFallbackStatus, 60000)` (line 211). -/
def fallbackIntervalMs : Nat := 60000

/-- Time (ms after entering fallback) of the k-th synthetic render:
`updateFallbackStatus()` runs immediately (k = 0, line 210), then once per
interval tick. -/
def fallbackRenderTime (k : Nat) : Nat :=
  k * fallbackIntervalMs

/-- A playing activity as the subscriber's client would report it. -/
def sampleGame : Activity :=
  ⟨0, "Elden Ring", some "Boss fight", none, none⟩

/-- A Spotify listening activity. -/
def sampleSpotify : Activity :=
  ⟨2, "Spotify", some "Song", some "Artist", none⟩

/-- A custom status with a non-empty state text. -/
def sampleCustom : Activity :=
  ⟨4, "Custom Status", none, some "hello", some "wave"⟩

/-- A custom status whose state field is absent. -/
def sampleCustomNoState : Activity :=
  ⟨4, "Custom Status", none, none, none⟩

lemma streakState_succ (n : Nat) :
    streakState (n + 1) = step (streakState n) (WsEvent.close false) := by
  unfold streakState run
  rw [List.replicate_succ', List.foldl_append]
  rfl

lemma streakState_closed (n : Nat) :
    streakState n =
      { reconnectAttempts := min n 5,
        mode := if 6 ≤ n then Mode.fallback else Mode.active,
        scheduledRetries := min n 5,
        lastScheduledDelay :=
          if n = 0 then none
          else if 6 ≤ n then none
          else some (baseDelayMs * n) } := by
  induction n with
  | zero => decide
  | succ n ih =>
    rw [streakState_succ n, ih]
    rcases Nat.lt_or_ge n 5 with h5 | h5
    · have hmin : min n 5 = n := Nat.min_eq_left (Nat.le_of_lt h5)
      have hmin' : min (n + 1) 5 = n + 1 := Nat.min_eq_left (by omega)
      have h6 : ¬ 6 ≤ n := by omega
      have h6' : ¬ 6 ≤ n + 1 := by omega
      simp [step, attemptReconnect, maxReconnectAttempts, hmin, hmin', h5, h6, h6']
    · have hmin : min n 5 = 5 := Nat.min_eq_right h5
      have hmin' : min (n + 1) 5 = 5 := Nat.min_eq_right (by omega)
      have h6' : 6 ≤ n + 1 := by omega
      simp [step, attemptReconnect, maxReconnectAttempts, hmin, hmin', h6']

end Lanyard

namespace Lanyard

/-- C1 counterexample: after exactly 5 consecutive unclean closes the manager
has not entered Fallback — it is still active and the 5th close has just
scheduled a 5th retry (delay 15000 ms), contradicting the claim that the 5th
close transitions to Fallback with no further scheduled reconnection. -/
theorem five_closes_do_not_enter_fallback :
    (streakState 5).mode = Mode.active ∧
    (streakState 5).lastScheduledDelay = some (baseDelayMs * 5) := by
  decide

/-- C1 (amended): in a run of consecutive unclean closes with no intervening
successful open, at most 5 reconnections are ever scheduled; the manager is in
Fallback exactly when at least 6 such closes have occurred (the 6th close,
arriving with the attempt counter at the ceiling, triggers the transition); and
that 6th close schedules no 6th retry. -/
theorem reconnect_ceiling (n : Nat) :
    (streakState n).scheduledRetries ≤ maxReconnectAttempts
    ∧ ((streakState n).mode = Mode.fallback ↔ 6 ≤ n)
    ∧ (streakState 6).lastScheduledDelay = none
    ∧ (streakState 6).scheduledRetries = maxReconnectAttempts := by
  refine ⟨?_, ?_, by decide, by decide⟩
  · rw [streakState_closed n]
    simp [maxReconnectAttempts]
  · rw [streakState_closed n]
    rcases Nat.lt_or_ge n 6 with h | h
    · have h' : ¬ 6 ≤ n := by omega
      simp [h']
    · simp [h]

/-- C1 witness: instantiating the amended ceiling theorem at a 7-close streak. -/
theorem reconnect_ceiling_witness :
    (streakState 7).scheduledRetries ≤ maxReconnectAttempts
    ∧ (streakState 7).mode = Mode.fallback :=
  ⟨(reconnect_ceiling 7).1, (reconnect_ceiling 7).2.1.mpr (by decide)⟩

/-- C6: the delay scheduled by the N-th consecutive unclean close, for
N = 1..5, is exactly N × 3000 ms, and the delay formula is monotonically
non-decreasing in the attempt number. -/
theorem reconnect_delay_linear (N : Nat) (h1 : 1 ≤ N) (h5 : N ≤ 5) :
    (streakState N).lastScheduledDelay = some (baseDelayMs * N)
    ∧ ∀ M, 1 ≤ M → M ≤ N → baseDelayMs * M ≤ baseDelayMs * N := by
  constructor
  · rw [streakState_closed N]
    have h0 : ¬ N = 0 := by omega
    have h6 : ¬ 6 ≤ N := by omega
    simp [h0, h6]
  · intro M _ hMN
    exact Nat.mul_le_mul_left baseDelayMs hMN

/-- C6 witness: the 3rd consecutive unclean close schedules a 9000 ms retry,
and the 2nd attempt's delay does not exceed it. -/
theorem reconnect_delay_linear_witness :
    (streakState 3).lastScheduledDelay = some (baseDelayMs * 3)
    ∧ baseDelayMs * 2 ≤ baseDelayMs * 3 :=
  ⟨(reconnect_delay_linear 3 (by decide) (by decide)).1,
   (reconnect_delay_linear 3 (by decide) (by decide)).2 2 (by decide) (by decide)⟩

/-- C2 counterexample: with the status dot and status text present but the
activity container and profile container absent, rendering a snapshot is not a
silent no-op — `updateActivity` calls `appendChild` on the `null` result of
`querySelector('.profile-info')` and throws a `TypeError`. -/
theorem missing_profile_container_throws :
    updateStatus ⟨true, true, false, false⟩ ⟨"online", some []⟩ =
      Except.error JsError.typeError :=
  rfl

/-- C2 (amended): if the status dot or the status text element is absent,
rendering is a silent logged no-op; if both are present but the activity
container is absent, the Renderer creates it and appends it to the profile
container and renders into it; if the profile container is also absent, a
`TypeError` is thrown. -/
theorem renderer_dom_absence (dom : Dom) (ud : UserData) :
    ((!dom.statusDot || !dom.statusText) = true →
      updateStatus dom ud = Except.ok UpdateOutcome.noop)
    ∧ (dom.statusDot = true → dom.statusText = true → dom.discordActivity = false →
        dom.profileInfo = false →
        updateStatus dom ud = Except.error JsError.typeError)
    ∧ (dom.statusDot = true → dom.statusText = true → dom.discordActivity = false →
        dom.profileInfo = true →
        updateStatus dom ud =
          Except.ok (UpdateOutcome.updated (statusConfig ud.discord_status) true
            (selectActivity (ud.activities.getD []) ud.discord_status))) := by
  refine ⟨?_, ?_, ?_⟩
  · intro h
    unfold updateStatus
    rw [if_pos h]
  · intro h1 h2 h3 h4
    simp [updateStatus, updateActivity, Except.map, h1, h2, h3, h4]
  · intro h1 h2 h3 h4
    simp [updateStatus, updateActivity, Except.map, h1, h2, h3, h4]

/-- C2 witness: the amended behaviour at concrete DOMs — missing status text
gives a no-op, and a DOM with only the status elements present gives the
thrown `TypeError`. -/
theorem renderer_dom_absence_witness :
    updateStatus ⟨true, false, true, true⟩ ⟨"online", some []⟩ =
      Except.ok UpdateOutcome.noop
    ∧ updateStatus ⟨true, true, false, false⟩ ⟨"idle", none⟩ =
      Except.error JsError.typeError :=
  ⟨(renderer_dom_absence ⟨true, false, true, true⟩ ⟨"online", some []⟩).1 (by decide),
   (renderer_dom_absence ⟨true, true, false, false⟩ ⟨"idle", none⟩).2.1
     rfl rfl rfl rfl⟩

/-- C3: when status is not offline, the displayed activity follows the fixed
precedence — the first qualifying playing activity wins; otherwise the first
Spotify activity; otherwise the first custom status (when its state text is
non-empty); and when no finder matches anything the display is hidden. The
`Rendered` result carries at most one activity by construction. -/
theorem activity_precedence (acts : List Activity) (status : String)
    (hs : status ≠ "offline") :
    (∀ g, acts.find? isGame = some g →
      selectActivity acts status = Rendered.playing g)
    ∧ (acts.find? isGame = none → ∀ sp, acts.find? isSpotify = some sp →
        selectActivity acts status = Rendered.listening sp)
    ∧ (acts.find? isGame = none → acts.find? isSpotify = none →
        ∀ c, acts.find? isCustom = some c → truthy c.state = true →
          selectActivity acts status = Rendered.custom c)
    ∧ (acts.find? isGame = none → acts.find? isSpotify = none →
        acts.find? isCustom = none →
        selectActivity acts status = Rendered.hidden) := by
  have hb : (status != "offline") = true := bne_iff_ne.mpr hs
  refine ⟨?_, ?_, ?_, ?_⟩
  · intro g hg
    simp only [selectActivity, hg, hb, if_true]
  · intro hg sp hsp
    simp only [selectActivity, hg, hsp, hb, if_true]
  · intro hg hsp c hc hstate
    simp only [selectActivity, hg, hsp, hc, hstate, hb, Bool.and_self, if_true]
  · intro hg hsp hc
    simp only [selectActivity, hg, hsp, hc]

/-- C3 witness: with a playing, a Spotify and a custom activity all present and
status online, the rendered activity is the playing one. -/
theorem activity_precedence_witness :
    selectActivity [sampleCustom, sampleSpotify, sampleGame] "online" =
      Rendered.playing sampleGame :=
  (activity_precedence [sampleCustom, sampleSpotify, sampleGame] "online"
    (by decide)).1 sampleGame (by decide)

/-- C4 counterexample: a malformed inbound message is not ignored —
`JSON.parse(event.data)` throws a parse error out of the `onmessage` handler,
contradicting the claim that no error is thrown or propagated. -/
theorem malformed_message_throws :
    handleMessage InMsg.malformed = Except.error JsError.parseError :=
  rfl

/-- C4 (amended): an inbound message that parses but has an unexpected shape
(not a heartbeat probe and not an INIT_STATE/PRESENCE_UPDATE data message) is
ignored with no error and no rendered-state change; a malformed message that
fails JSON parsing instead propagates a parse error out of the handler. -/
theorem unexpected_shape_ignored (op : Option Nat) (t : Option String)
    (d : Option UserData) (hop : op ≠ some 1) (ht1 : t ≠ some "INIT_STATE")
    (ht2 : t ≠ some "PRESENCE_UPDATE") :
    handleMessage (InMsg.parsed op t d) = Except.ok MsgAction.ignore
    ∧ handleMessage InMsg.malformed = Except.error JsError.parseError := by
  refine ⟨?_, rfl⟩
  have e1 : (op == some 1) = false := beq_eq_false_iff_ne.mpr hop
  have e2 : (t == some "INIT_STATE") = false := beq_eq_false_iff_ne.mpr ht1
  have e3 : (t == some "PRESENCE_UPDATE") = false := beq_eq_false_iff_ne.mpr ht2
  simp [handleMessage, e1, e2, e3]

/-- C4 witness: a parsed message with op 2 and an unknown event type is
ignored. -/
theorem unexpected_shape_ignored_witness :
    handleMessage (InMsg.parsed (some 2) (some "HELLO") none) =
      Except.ok MsgAction.ignore
    ∧ handleMessage InMsg.malformed = Except.error JsError.parseError :=
  unexpected_shape_ignored (some 2) (some "HELLO") none
    (by decide) (by decide) (by decide)

/-- C5 counterexample: the unrecognized code "toString" does not map to the
offline row — the property access finds the inherited truthy
`Object.prototype.toString`, so the `|| offline` default never fires and every
subsequent field read on the value is undefined. -/
theorem unrecognized_toString_not_offline :
    configValue "toString" = ConfigValue.inherited "toString"
    ∧ configValue "toString" ≠ ConfigValue.row offlineConfig
    ∧ configFields (configValue "toString") = none := by
  decide

/-- C5 (amended): each recognized status code maps to exactly its row of the
fixed lookup table; an unrecognized code that names no inherited
`Object.prototype` member maps to the offline row; an unrecognized code naming
an inherited member (toString, constructor, ...) instead yields that truthy
inherited value, bypassing the offline default, and the color, label and
shadow reads on it are all undefined. -/
theorem status_table_mapping_prototype (s : String) :
    configValue "online" = ConfigValue.row ⟨"#555", "Online", "0 0 5px #555"⟩
    ∧ configValue "idle" = ConfigValue.row ⟨"#666", "Away", "0 0 5px #666"⟩
    ∧ configValue "dnd" = ConfigValue.row ⟨"#777", "Busy", "0 0 5px #777"⟩
    ∧ configValue "offline" = ConfigValue.row offlineConfig
    ∧ (s ≠ "online" → s ≠ "idle" → s ≠ "dnd" → s ≠ "offline" →
        s ∉ objectProtoMembers → configValue s = ConfigValue.row offlineConfig)
    ∧ (s ∈ objectProtoMembers →
        configValue s = ConfigValue.inherited s
        ∧ configFields (ConfigValue.inherited s) = none) := by
  refine ⟨by decide, by decide, by decide, by decide, ?_, ?_⟩
  · intro h1 h2 h3 h4 h5
    have e1 : (("online" : String) == s) = false := beq_eq_false_iff_ne.mpr (Ne.symm h1)
    have e2 : (("idle" : String) == s) = false := beq_eq_false_iff_ne.mpr (Ne.symm h2)
    have e3 : (("dnd" : String) == s) = false := beq_eq_false_iff_ne.mpr (Ne.symm h3)
    have e4 : (("offline" : String) == s) = false := beq_eq_false_iff_ne.mpr (Ne.symm h4)
    simp [configValue, configProperty, statusTable, List.find?, e1, e2, e3, e4, h5]
  · intro h
    fin_cases h <;> exact ⟨rfl, rfl⟩

/-- C5 witness: a plain unrecognized code falls back to the offline row, while
a prototype-member name yields the inherited value instead. -/
theorem status_table_mapping_prototype_witness :
    configValue "banana" = ConfigValue.row offlineConfig
    ∧ configValue "constructor" = ConfigValue.inherited "constructor" :=
  ⟨(status_table_mapping_prototype "banana").2.2.2.2.1
      (by decide) (by decide) (by decide) (by decide) (by decide),
   ((status_table_mapping_prototype "constructor").2.2.2.2.2 (by decide)).1⟩

/-- C7: once fallback mode is entered, one synthetic snapshot is rendered
immediately (tick 0 at time 0) and a new one is rendered every 60000 ms
thereafter, and every synthetic snapshot carries an empty activity sequence
whatever the hour and random draw are. -/
theorem fallback_schedule_empty_activities :
    fallbackIntervalMs = 60000
    ∧ fallbackRenderTime 0 = 0
    ∧ (∀ k, fallbackRenderTime (k + 1) = fallbackRenderTime k + fallbackIntervalMs)
    ∧ ∀ (hour : Nat) (rand : ℚ), (fallbackSnapshot hour rand).activities = some [] :=
  ⟨rfl, rfl, fun k => Nat.succ_mul k fallbackIntervalMs, fun _ _ => rfl⟩

/-- C8: whatever the one-shot initial fetch does — network failure, timeout,
non-OK response, malformed body, non-success envelope, or success (even one
whose render throws) — `fetchInitialStatus` swallows the error and `init`
proceeds to open the persistent connection. -/
theorem init_always_connects (dom : Dom) (o : FetchOutcome) :
    init dom o = InitResult.connected := by
  rcases o with _ | _ | _ | _ | _ | d
  · rfl
  · rfl
  · rfl
  · rfl
  · rfl
  · unfold init fetchInitialStatus
    cases h : updateStatus dom d <;> simp [h]

/-- C9: with an offline status the activity display is hidden, whatever
activities the snapshot contains. -/
theorem offline_hides_activity (acts : List Activity) :
    selectActivity acts "offline" = Rendered.hidden := by
  unfold selectActivity
  rcases h1 : acts.find? isGame with _ | g <;>
    rcases h2 : acts.find? isSpotify with _ | sp <;>
      rcases h3 : acts.find? isCustom with _ | c <;>
        simp

/-- C10: when status is not offline and neither a qualifying playing activity
nor a Spotify activity is present, the custom status the code found (the first
kind-4 activity) is rendered exactly when its state field is present and
non-empty; with an absent or empty state the display is hidden. -/
theorem custom_status_requires_state (acts : List Activity) (status : String)
    (c : Activity) (hs : status ≠ "offline") (hg : acts.find? isGame = none)
    (hsp : acts.find? isSpotify = none) (hc : acts.find? isCustom = some c) :
    (truthy c.state = true → selectActivity acts status = Rendered.custom c)
    ∧ (truthy c.state = false → selectActivity acts status = Rendered.hidden) := by
  have hb : (status != "offline") = true := bne_iff_ne.mpr hs
  constructor
  · intro hstate
    simp only [selectActivity, hg, hsp, hc, hstate, hb, Bool.and_self, if_true]
  · intro hstate
    simp only [selectActivity, hg, hsp, hc, hstate, hb, Bool.false_and]
    rfl

/-- C10 witness: a lone custom status with text "hello" is rendered; a lone
custom status with no state text is hidden. -/
theorem custom_status_requires_state_witness :
    selectActivity [sampleCustom] "online" = Rendered.custom sampleCustom
    ∧ selectActivity [sampleCustomNoState] "online" = Rendered.hidden :=
  ⟨(custom_status_requires_state [sampleCustom] "online" sampleCustom
      (by decide) (by decide) (by decide) (by decide)).1 (by decide),
   (custom_status_requires_state [sampleCustomNoState] "online" sampleCustomNoState
      (by decide) (by decide) (by decide) (by decide)).2 (by decide)⟩

end Lanyard
